import Mathlib

/-!
Shallow embedding of `src/app.py` (a streamlit dashboard over one Excel
table) and proofs about its cleaning / filtering / metrics pipeline.

Modelling conventions:
* Python floats are idealized as `ℚ`; `float(str)` is modelled by `pyFloat`,
  the grammar of finite decimal literals with optional sign, fraction and
  exponent, surrounded by optional whitespace.  CPython additionally accepts
  `inf`/`nan` spellings and digit underscores; those are outside the model
  and treated as parse failures.
* numpy `log10`/`sqrt` are real functions; a NaN / -inf result of numpy is
  modelled by an explicit definedness predicate on the argument.
* Scalar cell values handed to `Series.apply` by pandas are modelled by
  `PyVal`: strings, numpy numeric scalars (which carry a `.dtype`), native
  Python numbers (no `.dtype`), and missing cells (`None` / float NaN).
-/

set_option maxRecDepth 8000

namespace APD1

/-- Numeric value of a list of decimal digit characters (most significant
first), as produced by `float` on the digit runs it accepts. -/
def digitsVal (l : List Char) : ℕ :=
  l.foldl (fun a c => 10 * a + (c.toNat - 48)) 0

/-- A non-empty run of decimal digits. -/
def isDigits (l : List Char) : Bool :=
  !l.isEmpty && l.all Char.isDigit

/-- Strip one optional leading sign; returns `true` iff the sign is `-`. -/
def parseSign : List Char → Bool × List Char
  | '-' :: r => (true, r)
  | '+' :: r => (false, r)
  | r => (false, r)

/-- Unsigned decimal mantissa: `digits`, `digits.digits`, `digits.` or
`.digits` (at least one digit overall). -/
def parseMantissa (cs : List Char) : Option ℚ :=
  let ip := cs.takeWhile Char.isDigit
  match cs.dropWhile Char.isDigit with
  | [] => if ip.isEmpty then none else some (digitsVal ip : ℚ)
  | '.' :: fr =>
    if fr.all Char.isDigit && !(ip.isEmpty && fr.isEmpty) then
      some ((digitsVal ip : ℚ) + (digitsVal fr : ℚ) / 10 ^ fr.length)
    else none
  | _ => none

/-- Exponent marker accepted by `float` (case-insensitive). -/
def isExpChar (c : Char) : Bool := c == 'e' || c == 'E'

/-- Unsigned float: mantissa with an optional `e`/`E` exponent part. -/
def parseUnsigned (cs : List Char) : Option ℚ :=
  let m := cs.takeWhile (fun c => !isExpChar c)
  match cs.dropWhile (fun c => !isExpChar c) with
  | [] => parseMantissa m
  | _ :: es =>
    match parseMantissa m, parseSign es with
    | none, _ => none
    | some q, (eneg, ds) =>
      if isDigits ds then
        some (q * 10 ^ (if eneg then -(digitsVal ds : ℤ) else (digitsVal ds : ℤ)))
      else none

/-- Whitespace trimming on both ends (model of Python `str.strip()` and of
the whitespace tolerance of `float`; Python also strips some further
unicode spaces, outside the model). -/
def trimChars (cs : List Char) : List Char :=
  ((cs.dropWhile Char.isWhitespace).reverse.dropWhile Char.isWhitespace).reverse

/-- Model of Python `str.strip()`. -/
def pyStrip (s : String) : String := ⟨trimChars s.data⟩

/-- Model of Python `float(str)` on finite decimal literals, returning the
exact rational value, or `none` where CPython raises `ValueError`. -/
def pyFloat (s : String) : Option ℚ :=
  match parseSign (trimChars s.data) with
  | (neg, cs) =>
    match parseUnsigned cs with
    | none => none
    | some q => some (if neg then -q else q)

/-- Model of Python `str.upper()` (ASCII; the sentinel and numeric strings
involved contain no cased non-ASCII characters). -/
def upper (s : String) : String := ⟨s.data.map Char.toUpper⟩

/-- Model of Python `str.lower()` (ASCII). -/
def lower (s : String) : String := ⟨s.data.map Char.toLower⟩

/-- Model of Python `str.replace(c, "")`: delete every occurrence of `c`. -/
def removeChar (c : Char) (s : String) : String :=
  ⟨s.data.filter (fun a => a != c)⟩

/-- Truncation toward zero, the conversion applied by
`Series.astype(int)` to each (finite) float of the review-count column. -/
def truncInt (q : ℚ) : ℤ := if 0 ≤ q then ⌊q⌋ else -⌊-q⌋

/-- A scalar cell value as handed to `clean_reviews` by
`df[评论数].apply` (or sitting in the rating column).
`numpyNum` is a (finite) numpy numeric scalar, which carries a `.dtype`
attribute; `pyNum` is a native Python `int`/`float`, which does not (the
typical content of an object-dtype column read from Excel); `missing` is a
true-missing cell (`None` or float NaN). -/
inductive PyVal where
  | str (s : String)
  | numpyNum (q : ℚ)
  | pyNum (q : ℚ)
  | missing
deriving DecidableEq

/-- Modelled from pandas (`pandas.core.dtypes.common.is_numeric_dtype`):
on a scalar argument the check succeeds exactly for values carrying a
numpy `.dtype` (numpy numeric scalars).  A native Python `int`/`float`
(and `None`) has no `.dtype`, `pandas_dtype(...)` raises
`TypeError`, and the check returns `False`. -/
def is_numeric_scalar : PyVal → Bool
  | .numpyNum _ => true
  | _ => false

/-- The no-reviews sentinel strings of `clean_reviews`
(`('0', '无评论', '无', '')`). -/
def reviewSentinels : List String := ["0", "无评论", "无", ""]

/-- The string branch of `clean_reviews` (lines 37-51): strip, then either
the K-branch (`float(s.upper().replace('K', '')) * 1000`), the sentinel
check on `s.lower()`, or `float(s.replace(',', ''))`, each `ValueError`
yielding `0`. -/
def clean_reviews_str (s0 : String) : ℚ :=
  let s := pyStrip s0
  if s.data.contains 'K' || s.data.contains 'k' then
    match pyFloat (removeChar 'K' (upper s)) with
    | some q => q * 1000
    | none => 0
  else if lower s ∈ reviewSentinels then 0
  else
    match pyFloat (removeChar ',' s) with
    | some q => q
    | none => 0

/-- Embedding of `clean_reviews` (src/app.py lines 36-54), the inner
function of `load_and_clean_data`: strings go to the string branch; a
value passing the pandas numeric-dtype check passes through; anything
else yields `0`. -/
def clean_reviews : PyVal → ℚ
  | .str s0 => clean_reviews_str s0
  | .numpyNum q => q
  | .pyNum _ => 0
  | .missing => 0

/-- The review-count parser of the spec: `clean_reviews` composed with the
`astype(int)` coercion of the resulting column (line 56). -/
def parse_review_count (v : PyVal) : ℤ := truncInt (clean_reviews v)

/-- The no-rating sentinel strings replaced by NaN before `to_numeric`
(line 59): `['无评分', '无', 'None', '无等级']`. -/
def ratingSentinels : List String := ["无评分", "无", "None", "无等级"]

/-- Embedding of the rating normalization (line 59):
`pd.to_numeric(df[等级].replace(ratingSentinels, nan), errors='coerce')`.
Sentinel strings and missing cells become NaN (`none`); other strings are
parsed, unparseable ones coerced to NaN; numeric cells pass through. -/
def normalize_rating : PyVal → Option ℚ
  | .str s => if s ∈ ratingSentinels then none else pyFloat s
  | .numpyNum q => some q
  | .pyNum q => some q
  | .missing => none

/-- One input row of the spreadsheet (columns 标题, 等级, 评论数). -/
structure RawRow where
  title : String
  rating : PyVal
  reviews : PyVal
deriving DecidableEq

/-- One cleaned record.  The derived chart columns 评论数_Log10 and
气泡大小 are functions of `review_count` (they are computed per-row from
评论数_数值 and never mutated), modelled by `review_count_log10` and
`bubble_size` below. -/
structure CleanedRow where
  title : String
  rating : ℚ
  review_count : ℤ
deriving DecidableEq

/-- Embedding of `load_and_clean_data` (lines 19-69) after the file has
been read: parse the review column (total, never drops a row), normalize
the rating column, and drop exactly the rows whose rating is NaN
(`dropna(subset=[等级_数值])`, line 67). -/
def load_and_clean_data (rows : List RawRow) : List CleanedRow :=
  rows.filterMap fun r =>
    (normalize_rating r.rating).map fun q =>
      { title := r.title, rating := q, review_count := parse_review_count r.reviews }

/-- The derived column 评论数_Log10 (line 62): `np.log10(评论数_数值 + 1)`
idealized as a real number (meaningful when `log10_entry_defined`). -/
noncomputable def review_count_log10 (c : ℤ) : ℝ := Real.logb 10 ((c : ℝ) + 1)

/-- The derived column 气泡大小 (line 64): `np.sqrt(评论数_数值) + 10`. -/
noncomputable def bubble_size (c : ℤ) : ℝ := Real.sqrt (c : ℝ) + 10

/-- The value np.log10(x) is a finite real iff 0 < x: numpy yields -inf
at 0 and NaN for negative arguments.  Applied to the argument
`review_count + 1` of the 评论数_Log10 column (line 62), this predicate
says the stored entry is an actual number. -/
def log10_entry_defined (c : ℤ) : Prop := 0 < c + 1

/-- The value np.sqrt(review_count) of line 64 is NaN for a negative
count; this predicate says the 气泡大小 entry is an actual number. -/
def sqrt_entry_defined (c : ℤ) : Prop := 0 ≤ c

/-- The boolean-mask condition of lines 110-113: rating and log-review
thresholds, both inclusive. -/
def matchesFilter (rmin : ℚ) (lmin : ℝ) (x : CleanedRow) : Prop :=
  rmin ≤ x.rating ∧ lmin ≤ review_count_log10 x.review_count

/-- Embedding of `df_filtered` (lines 110-113): the rows of the cleaned
frame whose rating is at least the rating slider value and whose
评论数_Log10 is at least the log-review slider value. -/
noncomputable def df_filtered (D : List CleanedRow) (rmin : ℚ) (lmin : ℝ) : List CleanedRow :=
  D.filter fun x => @decide (matchesFilter rmin lmin x) (Classical.propDecidable _)

/-- Embedding of `avg_rating_filtered` (lines 116-119): the mean rating of
the filtered frame, or `0` when it is empty. -/
def avg_rating_filtered (f : List CleanedRow) : ℚ :=
  if f.isEmpty then 0 else (f.map CleanedRow.rating).sum / f.length

/-- Embedding of the 最高评论数 KPI (line 141): the maximum review count
of the filtered frame, or the explicit no-data marker "N/A" (modelled by
`none`) when it is empty. -/
def max_reviews_display (f : List CleanedRow) : Option ℤ :=
  if f.isEmpty then none else (f.map CleanedRow.review_count).max?

/-- The three KPI values of lines 121-144. -/
structure KPIs where
  total_filtered : ℕ
  coverage_pct : ℚ
  avg_rating : ℚ
  max_reviews : Option ℤ

/-- The script's metric pass (lines 73-144): after loading, an empty
cleaned frame halts the script (`st.stop()`, lines 75-76) before any KPI
is computed — in particular before the division by `len(df_original)` of
line 128 — modelled by `none`; otherwise the three KPIs are rendered. -/
noncomputable def dashboard (rows : List RawRow) (rmin : ℚ) (lmin : ℝ) : Option KPIs :=
  let orig := load_and_clean_data rows
  if orig.isEmpty then none
  else
    let f := df_filtered orig rmin lmin
    some { total_filtered := f.length
         , coverage_pct := (f.length : ℚ) / (orig.length : ℚ) * 100
         , avg_rating := avg_rating_filtered f
         , max_reviews := max_reviews_display f }

/-- Modelled from the spec (§4.1 and claim C1): the review-count parser
with the spec text read literally — a "K"/"k" SUFFIX is detected and the
single suffix character is stripped before the float parse; then the
sentinel check on the trimmed case-insensitive text; then the
comma-stripping float parse; every parse failure yields 0. -/
def spec_parse_review_count (s0 : String) : ℤ :=
  let t := pyStrip s0
  if (t.data.getLast?).any (fun c => c == 'K' || c == 'k') then
    truncInt (1000 * ((pyFloat ⟨t.data.dropLast⟩).getD 0))
  else if lower t ∈ reviewSentinels then 0
  else truncInt ((pyFloat (removeChar ',' t)).getD 0)

/-- Modelled from the spec as amended by C1's counterexample: the K-branch
fires when a "K"/"k" occurs ANYWHERE in the trimmed text, and every
"K"/"k" is removed case-insensitively (uppercase, delete each 'K') before
the float parse; the other steps are unchanged. -/
def spec_parse_review_count_amended (s0 : String) : ℤ :=
  let t := pyStrip s0
  if t.data.contains 'K' || t.data.contains 'k' then
    truncInt (1000 * ((pyFloat (removeChar 'K' (upper t))).getD 0))
  else if lower t ∈ reviewSentinels then 0
  else truncInt ((pyFloat (removeChar ',' t)).getD 0)

/-- The 3-row dataset of the spec's end-to-end scenario (§8). -/
def rows3 : List RawRow :=
  [⟨"A", .pyNum 4.5, .str "100"⟩, ⟨"B", .str "无评分", .str "50"⟩, ⟨"C", .pyNum 4, .str "2K"⟩]

/-- Cleaned record of row A of the end-to-end scenario. -/
def recA : CleanedRow := ⟨"A", 9/2, 100⟩

/-- Cleaned record of row C of the end-to-end scenario. -/
def recC : CleanedRow := ⟨"C", 4, 2000⟩

/-- One-row dataset whose review count parses to a negative value. -/
def rowsNeg : List RawRow := [⟨"A", .numpyNum 4, .str "-100"⟩]

/-! Helper lemmas about the character-level parsing functions. -/

theorem mem_of_mem_dropWhile {α : Type} {p : α → Bool} :
    ∀ {l : List α} {a : α}, a ∈ l.dropWhile p → a ∈ l := by
  intro l
  induction l with
  | nil => intro a h; exact absurd h (List.not_mem_nil a)
  | cons x xs ih =>
    intro a h
    rw [List.dropWhile_cons] at h
    split at h
    · exact List.mem_cons_of_mem x (ih h)
    · exact h

theorem mem_trimChars {cs : List Char} {c : Char} (h : c ∈ trimChars cs) : c ∈ cs := by
  unfold trimChars at h
  rw [List.mem_reverse] at h
  have h2 := mem_of_mem_dropWhile h
  rw [List.mem_reverse] at h2
  exact mem_of_mem_dropWhile h2

theorem toNat_ofNat_of_valid {n : ℕ} (h : n.isValidChar) : (Char.ofNat n).toNat = n := by
  rw [Char.ofNat, dif_pos h]
  rfl

theorem eq_hyphen_of_toUpper {c : Char} (h : c.toUpper = '-') : c = '-' := by
  simp only [Char.toUpper] at h
  split at h
  · exfalso
    next hc =>
      have hv : (c.toNat - 32).isValidChar := Or.inl (by omega)
      have h45 := congrArg Char.toNat h
      rw [toNat_ofNat_of_valid hv] at h45
      have hd : ('-' : Char).toNat = 45 := by decide
      rw [hd] at h45
      omega
  · exact h

theorem parseMantissa_nonneg {cs : List Char} {q : ℚ} (h : parseMantissa cs = some q) :
    0 ≤ q := by
  simp only [parseMantissa] at h
  split at h
  · split at h
    · simp at h
    · injection h with h
      rw [← h]
      positivity
  · split at h
    · injection h with h
      rw [← h]
      positivity
    · simp at h
  · simp at h

theorem parseUnsigned_nonneg {cs : List Char} {q : ℚ} (h : parseUnsigned cs = some q) :
    0 ≤ q := by
  simp only [parseUnsigned] at h
  split at h
  · exact parseMantissa_nonneg h
  · split at h
    · simp at h
    · rename_i q0 eneg ds hm hs
      split at h
      · injection h with h
        rw [← h]
        have h0 := parseMantissa_nonneg hm
        have h1 : (0:ℚ) ≤ 10 ^ (if eneg then -(digitsVal ds : ℤ) else (digitsVal ds : ℤ)) :=
          zpow_nonneg (by norm_num) _
        exact mul_nonneg h0 h1
      · simp at h

theorem parseSign_fst {cs : List Char} (h : '-' ∉ cs) : (parseSign cs).1 = false := by
  unfold parseSign
  split
  · simp at h
  · rfl
  · rfl

theorem pyFloat_nonneg {s : String} {q : ℚ} (hm : '-' ∉ s.data) (h : pyFloat s = some q) :
    0 ≤ q := by
  have h2 : '-' ∉ trimChars s.data := fun hc => hm (mem_trimChars hc)
  unfold pyFloat at h
  split at h
  next neg cs hps =>
    have hneg : neg = false := by
      have hf := parseSign_fst h2
      rw [hps] at hf
      exact hf
    subst hneg
    split at h
    · simp at h
    · next q0 hq0 =>
      injection h with h
      rw [← h]
      simpa using parseUnsigned_nonneg hq0

theorem truncInt_nonneg {q : ℚ} (h : 0 ≤ q) : 0 ≤ truncInt q := by
  unfold truncInt
  rw [if_pos h]
  exact Int.floor_nonneg.2 h

theorem truncInt_zero : truncInt 0 = 0 := by
  unfold truncInt
  rw [if_pos le_rfl]
  exact Int.floor_zero

theorem truncInt_intCast (n : ℤ) : truncInt (n : ℚ) = n := by
  unfold truncInt
  split
  · exact Int.floor_intCast n
  · rw [show -(n : ℚ) = ((-n : ℤ) : ℚ) by push_cast; ring, Int.floor_intCast]
    ring

theorem clean_reviews_str_nonneg {s : String} (hm : '-' ∉ s.data) :
    0 ≤ clean_reviews_str s := by
  have hstrip : '-' ∉ (pyStrip s).data := fun hc => hm (mem_trimChars hc)
  have hKm : '-' ∉ (removeChar 'K' (upper (pyStrip s))).data := by
    intro hc
    have h1 : '-' ∈ (upper (pyStrip s)).data := List.mem_of_mem_filter hc
    obtain ⟨c, hc1, hc2⟩ := List.mem_map.1 h1
    exact hstrip (eq_hyphen_of_toUpper hc2 ▸ hc1)
  have hCm : '-' ∉ (removeChar ',' (pyStrip s)).data := fun hc =>
    hstrip (List.mem_of_mem_filter hc)
  simp only [clean_reviews_str]
  split
  · split
    · rename_i q hp
      exact mul_nonneg (pyFloat_nonneg hKm hp) (by norm_num)
    · exact le_rfl
  · split
    · exact le_rfl
    · split
      · rename_i q hp
        exact pyFloat_nonneg hCm hp
      · exact le_rfl

/-! Helper lemmas about the filter. -/

theorem mem_df_filtered {D : List CleanedRow} {rmin : ℚ} {lmin : ℝ} {x : CleanedRow} :
    x ∈ df_filtered D rmin lmin ↔ x ∈ D ∧ matchesFilter rmin lmin x := by
  simp [df_filtered, List.mem_filter]

theorem df_filtered_nil (rmin : ℚ) (lmin : ℝ) : df_filtered [] rmin lmin = [] := rfl

open Classical in
theorem df_filtered_cons (x : CleanedRow) (D : List CleanedRow) (rmin : ℚ) (lmin : ℝ) :
    df_filtered (x :: D) rmin lmin =
      if matchesFilter rmin lmin x then x :: df_filtered D rmin lmin
      else df_filtered D rmin lmin := by
  by_cases h : matchesFilter rmin lmin x
  · rw [if_pos h]
    unfold df_filtered
    rw [List.filter_cons, if_pos (by simpa using h)]
  · rw [if_neg h]
    unfold df_filtered
    rw [List.filter_cons, if_neg (by simpa using h)]

/-! The claim theorems. -/

/-- C1 (amended): for every string input the review-count parser trims
whitespace; if a "K"/"k" occurs ANYWHERE in the trimmed text (not only as
a suffix), every "K"/"k" is removed case-insensitively, the remaining
text parsed as a float, multiplied by 1000 and truncated; otherwise the
sentinel set yields 0; otherwise commas are stripped and the text parsed
as a float, truncated; parse failures yield 0.  In particular the five
quoted examples hold. -/
theorem C1_review_count_parser_amended :
    (∀ s : String, parse_review_count (.str s) = spec_parse_review_count_amended s) ∧
    parse_review_count (.str "3.4K") = 3400 ∧
    parse_review_count (.str "1,234") = 1234 ∧
    parse_review_count (.str "无") = 0 ∧
    parse_review_count (.str "") = 0 ∧
    parse_review_count (.str "abc") = 0 := by
  refine ⟨fun s => ?_, by with_unfolding_all decide, by with_unfolding_all decide,
    by with_unfolding_all decide, by with_unfolding_all decide, by with_unfolding_all decide⟩
  show truncInt (clean_reviews_str s) = spec_parse_review_count_amended s
  simp only [clean_reviews_str, spec_parse_review_count_amended]
  by_cases hK : ((pyStrip s).data.contains 'K' || (pyStrip s).data.contains 'k') = true
  · rw [if_pos hK, if_pos hK]
    cases hp : pyFloat (removeChar 'K' (upper (pyStrip s))) with
    | none => simp [truncInt_zero]
    | some q => simp [mul_comm]
  · rw [if_neg hK, if_neg hK]
    by_cases hs : lower (pyStrip s) ∈ reviewSentinels
    · rw [if_pos hs, if_pos hs]
      exact truncInt_zero
    · rw [if_neg hs, if_neg hs]
      cases hp : pyFloat (removeChar ',' (pyStrip s)) with
      | none => simp [truncInt_zero]
      | some q => simp

/-- C1 counterexample: the claim reads the spec's K-clause as a SUFFIX
test.  On "k12" the code fires its contains-K branch and returns 12000,
while the claimed suffix algorithm falls through to the plain float parse,
which fails, and returns 0. -/
theorem C1_suffix_reading_counterexample :
    parse_review_count (.str "k12") = 12000 ∧
    spec_parse_review_count "k12" = 0 ∧
    (12000 : ℤ) ≠ 0 :=
  ⟨by with_unfolding_all decide, by with_unfolding_all decide, by decide⟩

/-- C2: the rating normalizer maps every sentinel string and every
true-missing value to NaN (undefined), maps unparseable strings to NaN
without an exception, and every record surviving the cleaning obtained
its (defined) rating from the normalizer succeeding on its raw rating. -/
theorem C2_rating_normalization :
    (∀ s ∈ ratingSentinels, normalize_rating (.str s) = none) ∧
    normalize_rating .missing = none ∧
    (∀ s : String, s ∉ ratingSentinels → pyFloat s = none → normalize_rating (.str s) = none) ∧
    (∀ (rows : List RawRow), ∀ rec ∈ load_and_clean_data rows,
      ∃ r ∈ rows, normalize_rating r.rating = some rec.rating) := by
  refine ⟨fun s hs => ?_, rfl, fun s hs hp => ?_, fun rows rec hrec => ?_⟩
  · simp [normalize_rating, hs]
  · simp [normalize_rating, hs, hp]
  · simp only [load_and_clean_data, List.mem_filterMap] at hrec
    obtain ⟨r, hr, hfr⟩ := hrec
    rw [Option.map_eq_some'] at hfr
    obtain ⟨q, hq, heq⟩ := hfr
    subst heq
    exact ⟨r, hr, hq⟩

/-- C2 witness: the sentinel "无评分" is mapped to undefined. -/
theorem C2_rating_normalization_witness :
    normalize_rating (.str "无评分") = none :=
  C2_rating_normalization.1 "无评分" (by with_unfolding_all decide)

/-- C3: the filter engine returns exactly the subset of the cleaned
frame meeting both thresholds inclusively (membership characterization),
and returns the empty list when nothing matches. -/
theorem C3_filter_exact_subset :
    ∀ (D : List CleanedRow) (rmin : ℚ) (lmin : ℝ),
      (∀ x, x ∈ df_filtered D rmin lmin ↔
        x ∈ D ∧ rmin ≤ x.rating ∧ lmin ≤ review_count_log10 x.review_count) ∧
      ((∀ x ∈ D, ¬(rmin ≤ x.rating ∧ lmin ≤ review_count_log10 x.review_count)) →
        df_filtered D rmin lmin = []) := by
  intro D rmin lmin
  refine ⟨fun x => ?_, fun h => ?_⟩
  · rw [mem_df_filtered]
    exact Iff.rfl
  · unfold df_filtered
    rw [List.filter_eq_nil_iff]
    intro a ha
    simp only [decide_eq_true_eq]
    exact h a ha

/-- C3 witness: with a threshold above the only rating, the filter
returns the empty list rather than failing. -/
theorem C3_filter_exact_subset_witness :
    df_filtered [⟨"A", 4, 100⟩] 5 0 = [] :=
  (C3_filter_exact_subset [⟨"A", 4, 100⟩] 5 0).2 (by
    intro x hx
    rw [List.mem_singleton] at hx
    subst hx
    rintro ⟨h1, h2⟩
    exact absurd h1 (by norm_num : ¬ (5:ℚ) ≤ 4))

/-- C4: on the spec's 3-row scenario, cleaning keeps exactly A and C
(B's sentinel rating drops it), filtering at r_min = 4 and l_min = 0
keeps both, the average rating is 4.25 and the maximum review count is
2000. -/
theorem C4_end_to_end_scenario :
    load_and_clean_data rows3 = [recA, recC] ∧
    df_filtered (load_and_clean_data rows3) 4 0 = [recA, recC] ∧
    avg_rating_filtered (df_filtered (load_and_clean_data rows3) 4 0) = 4.25 ∧
    max_reviews_display (df_filtered (load_and_clean_data rows3) 4 0) = some 2000 := by
  have hclean : load_and_clean_data rows3 = [recA, recC] := by with_unfolding_all decide
  have hA : matchesFilter 4 0 recA := by
    refine ⟨by norm_num [recA], ?_⟩
    show (0:ℝ) ≤ review_count_log10 recA.review_count
    rw [show recA.review_count = 100 from rfl]
    unfold review_count_log10
    exact Real.logb_nonneg (by norm_num) (by norm_num)
  have hC : matchesFilter 4 0 recC := by
    refine ⟨by norm_num [recC], ?_⟩
    show (0:ℝ) ≤ review_count_log10 recC.review_count
    rw [show recC.review_count = 2000 from rfl]
    unfold review_count_log10
    exact Real.logb_nonneg (by norm_num) (by norm_num)
  have hfilt : df_filtered [recA, recC] 4 0 = [recA, recC] := by
    rw [df_filtered_cons, if_pos hA, df_filtered_cons, if_pos hC, df_filtered_nil]
  refine ⟨hclean, ?_, ?_, ?_⟩
  · rw [hclean, hfilt]
  · rw [hclean, hfilt]
    with_unfolding_all decide
  · rw [hclean, hfilt]
    with_unfolding_all decide

/-- C5: an empty filtered frame reports average rating 0 and the "N/A"
no-data marker for the maximum review count; an empty cleaned frame
halts the script before the coverage percentage (and its division by
`len(df_original)`) is ever computed, so no division by zero occurs. -/
theorem C5_degenerate_metrics :
    (∀ (D : List CleanedRow) (rmin : ℚ) (lmin : ℝ),
      df_filtered D rmin lmin = [] →
        avg_rating_filtered (df_filtered D rmin lmin) = 0 ∧
        max_reviews_display (df_filtered D rmin lmin) = none) ∧
    (∀ (rows : List RawRow) (rmin : ℚ) (lmin : ℝ),
      load_and_clean_data rows = [] → dashboard rows rmin lmin = none) := by
  refine ⟨fun D rmin lmin h => ?_, fun rows rmin lmin h => ?_⟩
  · rw [h]
    exact ⟨rfl, rfl⟩
  · simp [dashboard, h]

/-- C5 witness: the degenerate cases at concrete inputs. -/
theorem C5_degenerate_metrics_witness :
    avg_rating_filtered (df_filtered [] 0 0) = 0 ∧
    max_reviews_display (df_filtered [] 0 0) = none ∧
    dashboard [] 0 0 = none :=
  ⟨(C5_degenerate_metrics.1 [] 0 0 rfl).1, (C5_degenerate_metrics.1 [] 0 0 rfl).2,
    C5_degenerate_metrics.2 [] 0 0 rfl⟩

/-- C6 (amended): every cleaned record's 评论数_Log10 entry is
log10(review_count + 1) and its 气泡大小 entry is sqrt(review_count) + 10
by construction; PROVIDED the parsed review count is non-negative, the
log entry is defined and ≥ 0 and the bubble size is defined and > 0.
(The unconditional claim fails: a negative parsed count makes both numpy
expressions NaN, see the counterexample.) -/
theorem C6_derived_columns_amended :
    ∀ (rows : List RawRow), ∀ rec ∈ load_and_clean_data rows,
      review_count_log10 rec.review_count = Real.logb 10 ((rec.review_count : ℝ) + 1) ∧
      bubble_size rec.review_count = Real.sqrt (rec.review_count : ℝ) + 10 ∧
      (0 ≤ rec.review_count →
        log10_entry_defined rec.review_count ∧
        0 ≤ review_count_log10 rec.review_count ∧
        sqrt_entry_defined rec.review_count ∧
        0 < bubble_size rec.review_count) := by
  intro rows rec hrec
  refine ⟨rfl, rfl, fun h => ⟨?_, ?_, h, ?_⟩⟩
  · unfold log10_entry_defined
    omega
  · unfold review_count_log10
    refine Real.logb_nonneg (by norm_num) ?_
    have h2 : (0:ℝ) ≤ (rec.review_count : ℝ) := by exact_mod_cast h
    linarith
  · unfold bubble_size
    have h2 := Real.sqrt_nonneg ((rec.review_count : ℝ))
    linarith

/-- C6 counterexample: the input "-100" parses to review count -100; the
row survives cleaning (its rating is fine), yet np.log10(-100 + 1) and
np.sqrt(-100) are NaN — the log entry is neither defined nor ≥ 0. -/
theorem C6_negative_count_counterexample :
    load_and_clean_data rowsNeg = [⟨"A", 4, -100⟩] ∧
    ¬ log10_entry_defined (-100) ∧
    ¬ sqrt_entry_defined (-100) := by
  refine ⟨by with_unfolding_all decide, ?_, ?_⟩
  · unfold log10_entry_defined
    omega
  · unfold sqrt_entry_defined
    omega

/-- C6 witness: a cleaned record with count 100 has a defined
non-negative log entry and a positive bubble size. -/
theorem C6_derived_columns_amended_witness :
    log10_entry_defined (100:ℤ) ∧ 0 ≤ review_count_log10 100 ∧
    sqrt_entry_defined (100:ℤ) ∧ 0 < bubble_size 100 :=
  (C6_derived_columns_amended [⟨"A", .numpyNum 4, .str "100"⟩] ⟨"A", 4, 100⟩
    (by with_unfolding_all decide)).2.2 (by decide)

/-- C7 (amended): the review-count parser always outputs an integer; the
output is non-negative for every string containing no minus sign, for
every non-negative recognized numeric input, and for every unrecognized
or missing input.  (The unconditional claim fails on "-5", see the
counterexample.) -/
theorem C7_nonneg_output_amended :
    (∀ s : String, '-' ∉ s.data → 0 ≤ parse_review_count (.str s)) ∧
    (∀ q : ℚ, 0 ≤ q → 0 ≤ parse_review_count (.numpyNum q)) ∧
    (∀ q : ℚ, 0 ≤ parse_review_count (.pyNum q)) ∧
    0 ≤ parse_review_count .missing := by
  refine ⟨fun s hm => ?_, fun q hq => ?_, fun q => ?_, ?_⟩
  · exact truncInt_nonneg (clean_reviews_str_nonneg hm)
  · exact truncInt_nonneg hq
  · exact le_of_eq truncInt_zero.symm
  · exact le_of_eq truncInt_zero.symm

/-- C7 counterexample: the string "-5" parses to -5, a negative output. -/
theorem C7_negative_string_counterexample :
    parse_review_count (.str "-5") = -5 ∧ ¬ (0 ≤ (-5 : ℤ)) :=
  ⟨by with_unfolding_all decide, by decide⟩

/-- C7 witness: a digit string yields a non-negative count. -/
theorem C7_nonneg_output_amended_witness :
    0 ≤ parse_review_count (.str "17") :=
  C7_nonneg_output_amended.1 "17" (by with_unfolding_all decide)

/-- C8 (amended): numeric inputs recognized by the pandas dtype check
(numpy numeric scalars) pass through coerced to integer — unchanged for
integer-valued ones, truncated toward zero otherwise; native Python
numbers are NOT recognized by the scalar dtype check and yield 0. -/
theorem C8_numeric_passthrough_amended :
    (∀ n : ℤ, parse_review_count (.numpyNum (n : ℚ)) = n) ∧
    (∀ q : ℚ, parse_review_count (.numpyNum q) = truncInt q) ∧
    (∀ q : ℚ, parse_review_count (.pyNum q) = 0) :=
  ⟨fun n => truncInt_intCast n, fun _ => rfl, fun _ => truncInt_zero⟩

/-- C8 counterexample: the native Python number 5 (no `.dtype`, as found
in an object-dtype column) yields 0, not 5 — it is not passed through. -/
theorem C8_python_int_counterexample :
    parse_review_count (.pyNum 5) = 0 ∧ (0 : ℤ) ≠ 5 :=
  ⟨truncInt_zero, by decide⟩

/-- C9: raising either threshold never increases the size of the
filtered set. -/
theorem C9_filter_threshold_monotone :
    ∀ (D : List CleanedRow) (rmin rmin2 : ℚ) (lmin lmin2 : ℝ),
      rmin ≤ rmin2 → lmin ≤ lmin2 →
      (df_filtered D rmin2 lmin2).length ≤ (df_filtered D rmin lmin).length := by
  intro D rmin rmin2 lmin lmin2 hr hl
  have hstep : ∀ x : CleanedRow, matchesFilter rmin2 lmin2 x → matchesFilter rmin lmin x :=
    fun x hx => ⟨le_trans hr hx.1, le_trans hl hx.2⟩
  have key : df_filtered D rmin2 lmin2
      = List.filter (fun x => @decide (matchesFilter rmin2 lmin2 x) (Classical.propDecidable _))
          (df_filtered D rmin lmin) := by
    unfold df_filtered
    rw [List.filter_filter]
    apply List.filter_congr
    intro x hx
    by_cases h2 : matchesFilter rmin2 lmin2 x
    · simp [h2, hstep x h2]
    · simp [h2]
  rw [key]
  exact List.length_filter_le _ _

/-- C9 witness: at concrete thresholds on a one-row frame. -/
theorem C9_filter_threshold_monotone_witness :
    (df_filtered [⟨"A", 4, 100⟩] 5 1).length ≤ (df_filtered [⟨"A", 4, 100⟩] 4 0).length :=
  C9_filter_threshold_monotone [⟨"A", 4, 100⟩] 4 5 0 1 (by norm_num) (by norm_num)

/-- C10: inputs that are neither strings nor recognized by the pandas
scalar dtype check — native Python numbers, None, NaN — yield 0, and a
row with a missing review count survives cleaning with count 0. -/
theorem C10_unrecognized_scalar_zero :
    (∀ q : ℚ, parse_review_count (.pyNum q) = 0) ∧
    parse_review_count .missing = 0 ∧
    (∀ (t : String) (q : ℚ),
      load_and_clean_data [⟨t, .numpyNum q, .missing⟩] = [⟨t, q, 0⟩]) := by
  refine ⟨fun q => truncInt_zero, truncInt_zero, fun t q => ?_⟩
  simp [load_and_clean_data, normalize_rating, parse_review_count, clean_reviews, truncInt_zero]

end APD1
